import Mathlib

/-!
Shallow embedding of the two scripts of this repository:
`src/refresh_token.py` (Schwab OAuth token check/refresh CLI) and
`src/simple_populate.py` (SQLite seeder for stock symbols).

Python values read from JSON are modelled by the inductive `Json`;
wall-clock instants (`time.time()` floats) are modelled as rationals;
Python exceptions that the scripts can raise are modelled by `PyError`,
and a Python function that may raise returns `Except PyError α`.
-/

/-- JSON values as produced by Python's `json.load`. Numbers are modelled
as rationals (covering both ints and the floats written by `time.time()`). -/
inductive Json where
  | null : Json
  | bool (b : Bool) : Json
  | num (q : ℚ) : Json
  | str (s : String) : Json
  | arr (elems : List Json) : Json
  | obj (fields : List (String × Json)) : Json

/-- Python exceptions the scripts can raise: `KeyError` from a missing dict
key, `TypeError` from subscripting a non-dict or passing a non-number where
a timestamp is expected, and `json.JSONDecodeError` from an unparseable file. -/
inductive PyError where
  | keyError (k : String) : PyError
  | typeError : PyError
  | jsonDecodeError : PyError
deriving DecidableEq, Repr

/-- Python subscript `j['k']`: a dict yields the value or raises `KeyError`;
any non-dict value raises `TypeError` (string keys on lists/strings/numbers). -/
def Json.subscript (j : Json) (k : String) : Except PyError Json :=
  match j with
  | .obj fields =>
    match fields.lookup k with
    | some v => .ok v
    | none => .error (.keyError k)
  | _ => .error .typeError

/-- Python `d.get(k, default)` on a dict; non-dicts raise (AttributeError,
collapsed into `typeError`). -/
def Json.dictGet (j : Json) (k : String) (d : Json) : Except PyError Json :=
  match j with
  | .obj fields => .ok ((fields.lookup k).getD d)
  | _ => .error .typeError

/-- Coercion of a JSON value to a number as Python's arithmetic/`datetime.fromtimestamp`
does: numbers pass through, `True`/`False` act as 1/0, anything else raises `TypeError`. -/
def Json.asNum (j : Json) : Except PyError ℚ :=
  match j with
  | .num q => .ok q
  | .bool b => .ok (if b then 1 else 0)
  | _ => .error .typeError

/-- Python truthiness of a JSON value (`not data`): `None`, `False`, `0`, `""`,
`[]` and `{}` are falsy. -/
def Json.isFalsy (j : Json) : Bool :=
  match j with
  | .null => true
  | .bool b => !b
  | .num q => decide (q = 0)
  | .str s => s == ""
  | .arr elems => elems.isEmpty
  | .obj fields => fields.isEmpty

/-- Python truthiness of the value returned by `load_tokens` (which may be
`None` when the file is absent). -/
def pyFalsy (data : Option Json) : Bool :=
  match data with
  | none => true
  | some j => j.isFalsy

/-- State of the token file on disk: absent, present but not valid JSON, or
present with a parsed JSON value. -/
inductive TokenFile where
  | absent : TokenFile
  | unparseable : TokenFile
  | json (j : Json) : TokenFile

/-- `load_tokens` (src/refresh_token.py:36-43): returns `None` (printing a
message) when the file is absent, otherwise `json.load`s it; an unparseable
file raises `json.JSONDecodeError`, which `load_tokens` does not catch. -/
def load_tokens (file : TokenFile) : Except PyError (Option Json) :=
  match file with
  | .absent => .ok none
  | .unparseable => .error .jsonDecodeError
  | .json j => .ok (some j)

/-- `check_token_status` (src/refresh_token.py:51-75): loads the token file,
returns `False` when the loaded data is falsy, otherwise reads
`data['token']['expires_at']` and `data['creation_timestamp']`, formats both
as timestamps (raising `TypeError` on non-numbers), computes
`is_expired = expires_at < now` and returns `not is_expired`. Exceptions from
the dict accesses and timestamp formatting propagate to the caller. -/
def check_token_status (file : TokenFile) (now : ℚ) : Except PyError Bool := do
  let data ← load_tokens file
  if pyFalsy data then
    return false
  else
    match data with
    | none => return false
    | some d => do
      let tok ← d.subscript "token"
      let ea ← tok.subscript "expires_at"
      let cr ← d.subscript "creation_timestamp"
      let _creationNum ← cr.asNum
      let expiresAt ← ea.asNum
      return !decide (expiresAt < now)

/-- Token-file JSON in the nested shape `check_token_status` reads: a
`creation_timestamp` at top level and `expires_at` under `"token"`. -/
def mkNestedFile (expiresAt creation : ℚ) : Json :=
  .obj [("creation_timestamp", .num creation),
        ("token", .obj [("expires_at", .num expiresAt)])]

/-- Credentials mapping built by `load_config` (src/refresh_token.py:25-34)
from the `KEY=VALUE` lines of the `.env` file. -/
abbrev Config : Type := List (String × String)

/-- `config.get(k)` truthiness as used on src/refresh_token.py:84: a key is
usable when it is present with a non-empty value. -/
def truthyGet (config : Config) (k : String) : Bool :=
  match List.lookup k config with
  | some v => v != ""
  | none => false

/-- An HTTP response from the token endpoint: its status code, the result of
`response.json()` (which can raise on a non-JSON body), and `response.text`. -/
structure HttpResponse where
  status_code : Nat
  body : Except PyError Json
  text : String

/-- Outcome of the network layer for the single `requests.post` call:
either a response arrives or the transport fails with an exception. -/
inductive NetResult where
  | response (r : HttpResponse) : NetResult
  | transportError : NetResult

/-- Observable outcome of one `refresh_access_token` run: whether the HTTP
request to the token endpoint was issued, what (if anything) was written to
the token file by `save_tokens`, the Python return value, and the
status/body pair printed on a non-200 response. -/
structure RefreshResult where
  httpCalled : Bool
  saved : Option Json
  result : Bool
  reported : Option (Nat × String)

/-- Shape of the `updated_data` dict literal of src/refresh_token.py:121-132:
a fresh `creation_timestamp` at top level and, under `"token"`, the five
fields taken from the response, the (possibly defaulted) `id_token`, and the
recomputed absolute `expires_at`. -/
def mkUpdatedData (ei tt sc rt ac idt : Json) (creation expiresAt : ℚ) : Json :=
  .obj [("creation_timestamp", .num creation),
    ("token", .obj [("expires_in", ei), ("token_type", tt), ("scope", sc),
      ("refresh_token", rt), ("access_token", ac), ("id_token", idt),
      ("expires_at", .num expiresAt)])]

/-- Construction of `updated_data` (src/refresh_token.py:118-132) from the
200-response body: the five required fields are read with raising subscripts,
`id_token` with a defaulting `.get('id_token', '')`, `creation_timestamp` is
the first `time.time()` call (`now1`) and `expires_at` is the second
(`now2`) plus `expires_in` (raising `TypeError` if `expires_in` is not a
number). The old token record does not appear: the saved data is built from
the response alone. -/
def buildUpdated (body : Except PyError Json) (now1 now2 : ℚ) : Except PyError Json := do
  let new_token ← body
  let ei ← new_token.subscript "expires_in"
  let tt ← new_token.subscript "token_type"
  let sc ← new_token.subscript "scope"
  let rt ← new_token.subscript "refresh_token"
  let ac ← new_token.subscript "access_token"
  let idt ← new_token.dictGet "id_token" (.str "")
  let eiNum ← ei.asNum
  return mkUpdatedData ei tt sc rt ac idt now1 (now2 + eiNum)

/-- The `try` block of `refresh_access_token` (src/refresh_token.py:110-145):
the POST is issued; on status 200 the new record is built and saved (any
exception while parsing the body or building the record is caught by the
`except`, yielding `False` with nothing saved); on any other status the code
prints the status code and `response.text` and returns `False`; a transport
failure is likewise caught. No exception escapes this block, so every
raising path of `refresh_access_token` precedes the HTTP request. -/
def tryRefresh (net : NetResult) (now1 now2 : ℚ) : RefreshResult :=
  match net with
  | .transportError => ⟨true, none, false, none⟩
  | .response r =>
    if r.status_code = 200 then
      match buildUpdated r.body now1 now2 with
      | .ok updated => ⟨true, some updated, true, none⟩
      | .error _ => ⟨true, none, false, none⟩
    else
      ⟨true, none, false, some (r.status_code, r.text)⟩

/-- `refresh_access_token` (src/refresh_token.py:77-145): loads config and
tokens (an unparseable token file raises here, uncaught), returns `False`
when either credential key is missing/empty or the token data is falsy,
extracts `token_data['token']['refresh_token']` (raising, uncaught, on a
wrongly shaped record), then runs the guarded HTTP exchange. -/
def refresh_access_token (config : Config) (file : TokenFile)
    (net : NetResult) (now1 now2 : ℚ) : Except PyError RefreshResult := do
  let token_data ← load_tokens file
  if !(truthyGet config "SCHWAB_API_KEY" && truthyGet config "SCHWAB_APP_SECRET") then
    return ⟨false, none, false, none⟩
  else if pyFalsy token_data then
    return ⟨false, none, false, none⟩
  else
    match token_data with
    | none => return ⟨false, none, false, none⟩
    | some td => do
      let tok ← td.subscript "token"
      let _refreshTok ← tok.subscript "refresh_token"
      return tryRefresh net now1 now2

/-- Whether a `refresh_access_token` outcome issued the HTTP request. Every
raising path of `refresh_access_token` occurs before `requests.post` (the
`try` block catches everything after it), so an exceptional outcome means no
request was made. -/
def httpIssued (r : Except PyError RefreshResult) : Bool :=
  match r with
  | .ok res => res.httpCalled
  | .error _ => false

/-- What a `refresh_access_token` outcome wrote to the token file, if
anything (`save_tokens` runs only on the 200 path). -/
def savedOf (r : Except PyError RefreshResult) : Option Json :=
  match r with
  | .ok res => res.saved
  | .error _ => none

/-- Observable trace of one `main` run (src/refresh_token.py:147-167):
whether the usage line was printed, whether the HTTP request to the token
endpoint was issued, and what (if anything) was written to the token file. -/
structure MainTrace where
  usagePrinted : Bool
  httpCalled : Bool
  saved : Option Json

/-- Token-file state after a possible `save_tokens`: the write fully
overwrites the file. -/
def updateFile (file : TokenFile) (saved : Option Json) : TokenFile :=
  match saved with
  | some j => .json j
  | none => file

/-- The function `main` of src/refresh_token.py:147-167 (named `mainEntry`
here because Lean reserves `main`). `argv` is `sys.argv[1:]`.
With a first argument `--check` or `--refresh` the corresponding operation
runs (its return value is ignored and the process exits 0 unless an
exception escapes); any other argument prints the usage line and the process
exits 0. With no argument, the status is checked and, when the check returns
falsy, a refresh is attempted; on a successful refresh the status of the
newly written file is checked again. `now1` is the clock at the first status
check, `nowR1`/`nowR2` the two `time.time()` calls inside the refresh, and
`now3` the clock at the re-check. An `.error` outcome is an unhandled Python
exception (process exit code 1); `.ok` means normal return (exit code 0). -/
def mainEntry (argv : List String) (config : Config) (file : TokenFile)
    (net : NetResult) (now1 nowR1 nowR2 now3 : ℚ) : Except PyError MainTrace := do
  match argv with
  | command :: _ =>
    if command = "--check" then do
      let _status ← check_token_status file now1
      return ⟨false, false, none⟩
    else if command = "--refresh" then do
      let r ← refresh_access_token config file net nowR1 nowR2
      return ⟨false, r.httpCalled, r.saved⟩
    else
      return ⟨true, false, none⟩
  | [] => do
    let valid ← check_token_status file now1
    if valid then
      return ⟨false, false, none⟩
    else do
      let r ← refresh_access_token config file net nowR1 nowR2
      if r.result then do
        let _recheck ← check_token_status (updateFile file r.saved) now3
        return ⟨false, r.httpCalled, r.saved⟩
      else
        return ⟨false, r.httpCalled, r.saved⟩

/-- Process exit code of a `main` run: 0 on normal return, 1 when an
unhandled exception terminates the interpreter. -/
def exitCode (r : Except PyError MainTrace) : Nat :=
  match r with
  | .ok _ => 0
  | .error _ => 1

/-! ### Seeder (src/simple_populate.py) -/

/-- `SP500_SYMBOLS` (src/simple_populate.py:12-40), the fixed symbol list. -/
def SP500_SYMBOLS : List String := [
  "AAPL", "MSFT", "GOOGL", "GOOG", "AMZN", "NVDA", "META", "TSLA", "NFLX", "ADBE",
  "CRM", "ORCL", "CSCO", "INTC", "IBM", "QCOM", "TXN", "AVGO", "INTU", "AMD",
  "NOW", "AMAT", "ADI", "LRCX", "KLAC", "CDNS", "SNPS", "MCHP", "FTNT", "PANW",
  "UNH", "JNJ", "PFE", "ABBV", "LLY", "TMO", "ABT", "MRK", "DHR", "BMY",
  "AMGN", "MDT", "GILD", "CVS", "CI", "ISRG", "REGN", "VRTX", "ZTS", "DXCM",
  "BDX", "ELV", "HUM", "SYK", "BSX", "A", "EW", "IDXX", "RMD", "IQV",
  "BRK-B", "JPM", "V", "MA", "BAC", "WFC", "GS", "MS", "C", "AXP",
  "SPGI", "BLK", "SCHW", "CB", "ICE", "PGR", "AON", "CME", "USB", "TFC",
  "COF", "AIG", "MET", "PRU", "TRV", "ALL", "AJG", "MMC", "PNC", "BK",
  "HD", "MCD", "NKE", "SBUX", "LOW", "TJX", "BKNG", "GM", "F",
  "ABNB", "MAR", "HLT", "MGM", "WYNN", "LVS", "NCLH", "RCL", "CCL",
  "YUM", "CMG", "DPZ", "QSR", "KMX", "BBY", "TGT", "WMT", "COST",
  "PG", "KO", "PEP", "MDLZ", "CL", "GIS", "K", "CPB",
  "CAG", "SJM", "HSY", "MKC", "CLX", "KR", "SYY", "ADM", "TSN", "HRL",
  "XOM", "CVX", "COP", "EOG", "SLB", "PXD", "VLO", "MPC", "PSX", "KMI",
  "OKE", "WMB", "HES", "DVN", "FANG", "BKR", "HAL", "MRO", "APA", "OXY"]

/-- Modelled from the spec: the `stocks` table is created outside this
repository (by the consuming Rust application); per spec sections 3 and 4.6
its only relevant invariant is uniqueness of `symbol`, so the table is
modelled as the list of symbols present and SQLite's `INSERT OR IGNORE`
inserts the row unless a row with that symbol already exists, in which case
it does nothing and reports `cursor.rowcount == 0` — never an error. -/
def insertOrIgnoreStock (table : List String) (symbol : String) : List String × Bool :=
  if symbol ∈ table then (table, false) else (table ++ [symbol], true)

/-- The stock-insertion loop of `populate_database`
(src/simple_populate.py:53-72): one `INSERT OR IGNORE` per symbol of the
given list, counting `stocks_added` via `cursor.rowcount > 0`. Returns the
resulting table and the count of newly added rows. -/
def seedStocks (table : List String) : List String → List String × Nat
  | [] => (table, 0)
  | symbol :: rest =>
    let step := insertOrIgnoreStock table symbol
    let r := seedStocks step.1 rest
    (r.1, r.2 + (if step.2 then 1 else 0))

/-- `populate_database` (src/simple_populate.py:42-75) restricted to the
`stocks` table: runs the insertion loop over `SP500_SYMBOLS` against the
current table state. -/
def populate_database (table : List String) : List String × Nat :=
  seedStocks table SP500_SYMBOLS

/-! ### Concrete fixtures used by witnesses and counterexamples -/

/-- Credentials mapping with both required keys present and non-empty. -/
def goodConfig : Config := [("SCHWAB_API_KEY", "key"), ("SCHWAB_APP_SECRET", "secret")]

/-- Token-file JSON in the nested shape with both the `expires_at` the
status check reads and the `refresh_token` the refresh operation reads. -/
def mkRefreshableFile (expiresAt creation : ℚ) (refreshTok : String) : Json :=
  .obj [("creation_timestamp", .num creation),
        ("token", .obj [("expires_at", .num expiresAt),
                        ("refresh_token", .str refreshTok)])]

/-- Stored token data used in refresh scenarios: nested shape, expiry 50. -/
def storedTokenData : Json := mkRefreshableFile 50 0 "oldref"

/-- Token file in the flat historical shape of spec section 6 (expiry at top
level, no `"token"` key). -/
def topLevelFile : Json :=
  .obj [("access_token", .str "acc"), ("refresh_token", .str "ref"),
        ("expires_at", .num 100)]

/-- Token file in the nested shape but with `expires_at` encoded as an
ISO-8601 string with a trailing zone marker (the instant equals epoch 100). -/
def isoExpiryFile : Json :=
  .obj [("creation_timestamp", .num 0),
        ("token", .obj [("expires_at", .str "1970-01-01T00:01:40Z")])]

/-- A 401 response from the token endpoint. -/
def resp401 : HttpResponse := ⟨401, .error .jsonDecodeError, "unauthorized"⟩

/-- Body of a 200 response with all five required fields and an `id_token`. -/
def respBodyFull : Json :=
  .obj [("expires_in", .num 1800), ("token_type", .str "Bearer"),
        ("scope", .str "api"), ("refresh_token", .str "newref"),
        ("access_token", .str "newacc"), ("id_token", .str "idtok")]

/-- A 200 response carrying `respBodyFull`. -/
def resp200 : HttpResponse := ⟨200, .ok respBodyFull, "ok"⟩

/-- Body of a 200 response with the five required fields but no `id_token`. -/
def respBodyNoId : Json :=
  .obj [("expires_in", .num 900), ("token_type", .str "Bearer"),
        ("scope", .str "api"), ("refresh_token", .str "newref2"),
        ("access_token", .str "newacc2")]

/-- A 200 response carrying `respBodyNoId`. -/
def resp200NoId : HttpResponse := ⟨200, .ok respBodyNoId, "ok"⟩

/-! ### Reduction lemmas for the `Except` monad -/

/-- Bind on a successful `Except` computation reduces to the continuation. -/
theorem exceptOkBind {ε α β : Type} (a : α) (f : α → Except ε β) :
    (Except.ok a >>= f : Except ε β) = f a := rfl

/-- Bind on a failed `Except` computation propagates the error. -/
theorem exceptErrorBind {ε α β : Type} (e : ε) (f : α → Except ε β) :
    ((Except.error e : Except ε α) >>= f) = Except.error e := rfl

/-- Map over a successful `Except` computation applies the function. -/
theorem exceptMapOk {ε α β : Type} (f : α → β) (a : α) :
    (f <$> (Except.ok a : Except ε α)) = Except.ok (f a) := rfl

/-- Map over a failed `Except` computation propagates the error. -/
theorem exceptMapError {ε α β : Type} (f : α → β) (e : ε) :
    (f <$> (Except.error e : Except ε α)) = Except.error e := rfl

/-- Pure in the `Except` monad is `Except.ok`. -/
theorem exceptPure {ε α : Type} (a : α) : (pure a : Except ε α) = Except.ok a := rfl

/-! ### Shared evaluation lemmas for the token scripts -/

/-- Evaluation of the status check on a nested-shape record with numeric
fields: the result is `not (expires_at < now)`. -/
theorem check_mkNestedFile (expiresAt creation now : ℚ) :
    check_token_status (.json (mkNestedFile expiresAt creation)) now
      = .ok (!decide (expiresAt < now)) := rfl

/-- Evaluation of the status check on a nested-shape record that also
carries a refresh token. -/
theorem check_mkRefreshableFile (expiresAt creation : ℚ) (refreshTok : String) (now : ℚ) :
    check_token_status (.json (mkRefreshableFile expiresAt creation refreshTok)) now
      = .ok (!decide (expiresAt < now)) := rfl

/-- Evaluation of the status check on a freshly saved `updated_data` record. -/
theorem check_mkUpdatedData (ei tt sc rt ac idt : Json) (creation expiresAt now : ℚ) :
    check_token_status (.json (mkUpdatedData ei tt sc rt ac idt creation expiresAt)) now
      = .ok (!decide (expiresAt < now)) := rfl

/-- Symbols already present survive the insertion loop, and every symbol of
the seeded list ends up in the table. -/
theorem seedStocks_mem (syms : List String) : ∀ (table : List String) (s : String),
    s ∈ table ∨ s ∈ syms → s ∈ (seedStocks table syms).1 := by
  induction syms with
  | nil =>
    intro table s h
    rcases h with h | h
    · exact h
    · cases h
  | cons symbol rest ih =>
    intro table s h
    show s ∈ (seedStocks (insertOrIgnoreStock table symbol).1 rest).1
    apply ih
    rcases h with h | h
    · left
      unfold insertOrIgnoreStock
      split
      · exact h
      · exact List.mem_append_left _ h
    · rcases List.mem_cons.mp h with h | h
      · left
        subst h
        unfold insertOrIgnoreStock
        split
        · assumption
        · exact List.mem_append_right _ (List.mem_singleton.mpr rfl)
      · right
        exact h

/-- When every symbol of the seeded list is already in the table, the
insertion loop adds zero rows. -/
theorem seedStocks_count_zero (syms : List String) : ∀ (table : List String),
    (∀ s ∈ syms, s ∈ table) → (seedStocks table syms).2 = 0 := by
  induction syms with
  | nil => intro table _; rfl
  | cons symbol rest ih =>
    intro table h
    have hsym : symbol ∈ table := h symbol (List.mem_cons_self _ _)
    show (seedStocks (insertOrIgnoreStock table symbol).1 rest).2
        + (if (insertOrIgnoreStock table symbol).2 then 1 else 0) = 0
    rw [show insertOrIgnoreStock table symbol = (table, false) from by
      unfold insertOrIgnoreStock; rw [if_pos hsym]]
    simp only [if_neg Bool.false_ne_true, Nat.add_zero]
    exact ih table fun s hs => h s (List.mem_cons_of_mem _ hs)

/-- Claim C8: running the seeder twice in succession inserts the fixed
symbol list only once — whatever the initial table state, the second run's
`INSERT OR IGNORE` loop adds zero new rows to the `stocks` table, and
re-running never fails on an existing symbol (the loop is total). -/
theorem populate_database_idempotent (table : List String) :
    (populate_database (populate_database table).1).2 = 0 := by
  apply seedStocks_count_zero
  intro s hs
  exact seedStocks_mem _ _ _ (Or.inr hs)

/-- Claim C1 counterexample: a nested-shape record with `expires_at = 100`
checked at `now = 100` (the boundary `expires_at == now`) is reported valid
(`True`), not expired — `check_token_status` computes `expires_at < now`,
not the claimed strict `expires_at > now`. -/
theorem check_boundary_counterexample :
    check_token_status (.json (mkNestedFile 100 0)) 100 = .ok true ∧
    check_token_status (.json (mkNestedFile 100 0)) 100 ≠ .ok false := by
  have h : check_token_status (.json (mkNestedFile 100 0)) 100 = .ok true := rfl
  refine ⟨h, fun hfalse => ?_⟩
  exact Bool.noConfusion (Except.ok.inj (h.symm.trans hfalse))

/-- Claim C1 (amended): the token status check returns valid exactly when
`expires_at ≥ now`; the token is reported expired strictly when
`expires_at < now`, so at the boundary `expires_at == now` the token is
treated as still valid (`is_valid` returns `True`). -/
theorem check_valid_iff_ge_now (expiresAt creation now : ℚ) :
    check_token_status (.json (mkNestedFile expiresAt creation)) now
      = .ok (decide (now ≤ expiresAt)) := by
  rw [check_mkNestedFile, ← decide_not]
  exact congrArg Except.ok (decide_eq_decide.mpr not_lt)

/-- Claim C2 counterexample: the loader performs no shape or encoding
normalization. The flat historical shape (expiry at top level) is returned
unchanged by `load_tokens` and then crashes the status check with an
uncaught `KeyError('token')`; the ISO-8601 string encoding of the same
instant crashes it with an uncaught `TypeError`; only the nested numeric
shape yields a result — equivalent encodings do not produce the same
record, and no `ParseError` is ever reported. -/
theorem load_shapes_counterexample :
    load_tokens (.json topLevelFile) = .ok (some topLevelFile) ∧
    check_token_status (.json topLevelFile) 50 = .error (.keyError "token") ∧
    check_token_status (.json isoExpiryFile) 50 = .error .typeError ∧
    check_token_status (.json (mkNestedFile 100 0)) 50 = .ok true :=
  ⟨rfl, rfl, rfl, rfl⟩

/-- Claim C2 (amended): `load_tokens` returns the parsed JSON value
unchanged, accepting any JSON; the only shape the consuming status check
accepts is the nested `"token"` shape with numeric `expires_at` (and a
numeric top-level `creation_timestamp`). The flat historical shape raises
an uncaught `KeyError('token')` and an ISO-8601 string expiry raises an
uncaught `TypeError` — neither is normalized, and no `ParseError` exists. -/
theorem load_shapes_amended :
    (∀ j : Json, load_tokens (.json j) = .ok (some j)) ∧
    (∀ now : ℚ, check_token_status (.json topLevelFile) now = .error (.keyError "token")) ∧
    (∀ now : ℚ, check_token_status (.json isoExpiryFile) now = .error .typeError) ∧
    (∀ expiresAt creation now : ℚ,
      check_token_status (.json (mkNestedFile expiresAt creation)) now
        = .ok (!decide (expiresAt < now))) :=
  ⟨fun _ => rfl, fun _ => rfl, fun _ => rfl, fun ea cr now => check_mkNestedFile ea cr now⟩

/-- Decomposition of a successful `updated_data` construction: the body must
have parsed, the five required fields must all have been present,
`expires_in` must be numeric, and the result has exactly the saved shape
with `expires_at = now2 + expires_in`. -/
theorem buildUpdated_ok_shape (body : Except PyError Json) (now1 now2 : ℚ) (u : Json)
    (h : buildUpdated body now1 now2 = .ok u) :
    ∃ nt ei tt sc rt ac idt eiNum, body = .ok nt ∧
      nt.subscript "expires_in" = .ok ei ∧
      nt.subscript "token_type" = .ok tt ∧
      nt.subscript "scope" = .ok sc ∧
      nt.subscript "refresh_token" = .ok rt ∧
      nt.subscript "access_token" = .ok ac ∧
      nt.dictGet "id_token" (.str "") = .ok idt ∧
      ei.asNum = .ok eiNum ∧
      u = mkUpdatedData ei tt sc rt ac idt now1 (now2 + eiNum) := by
  cases body with
  | error e => simp [buildUpdated, exceptErrorBind] at h
  | ok nt =>
    cases hei : nt.subscript "expires_in" with
    | error e => simp [buildUpdated, exceptOkBind, exceptErrorBind, hei] at h
    | ok ei =>
    cases htt : nt.subscript "token_type" with
    | error e => simp [buildUpdated, exceptOkBind, exceptErrorBind, hei, htt] at h
    | ok tt =>
    cases hsc : nt.subscript "scope" with
    | error e => simp [buildUpdated, exceptOkBind, exceptErrorBind, hei, htt, hsc] at h
    | ok sc =>
    cases hrt : nt.subscript "refresh_token" with
    | error e => simp [buildUpdated, exceptOkBind, exceptErrorBind, hei, htt, hsc, hrt] at h
    | ok rt =>
    cases hac : nt.subscript "access_token" with
    | error e => simp [buildUpdated, exceptOkBind, exceptErrorBind, hei, htt, hsc, hrt, hac] at h
    | ok ac =>
    cases hid : nt.dictGet "id_token" (.str "") with
    | error e =>
      simp [buildUpdated, exceptOkBind, exceptErrorBind, hei, htt, hsc, hrt, hac, hid] at h
    | ok idt =>
    cases heiN : ei.asNum with
    | error e =>
      simp [buildUpdated, exceptOkBind, exceptErrorBind, exceptMapError,
        hei, htt, hsc, hrt, hac, hid, heiN] at h
    | ok eiNum =>
      refine ⟨nt, ei, tt, sc, rt, ac, idt, eiNum, rfl, hei, htt, hsc, hrt, hac, hid, heiN, ?_⟩
      have hok : buildUpdated (.ok nt) now1 now2
          = .ok (mkUpdatedData ei tt sc rt ac idt now1 (now2 + eiNum)) := by
        simp [buildUpdated, exceptOkBind, exceptMapOk, hei, htt, hsc, hrt, hac, hid, heiN]
      exact (Except.ok.inj (hok.symm.trans h)).symm

/-- The HTTP request is issued on every path through the `try` block. -/
theorem tryRefresh_httpCalled (net : NetResult) (now1 now2 : ℚ) :
    (tryRefresh net now1 now2).httpCalled = true := by
  cases net with
  | transportError => rfl
  | response r =>
    show (if r.status_code = 200 then
        match buildUpdated r.body now1 now2 with
        | .ok updated => (⟨true, some updated, true, none⟩ : RefreshResult)
        | .error _ => ⟨true, none, false, none⟩
      else ⟨true, none, false, some (r.status_code, r.text)⟩).httpCalled = true
    by_cases h200 : r.status_code = 200
    · rw [if_pos h200]
      cases hbu : buildUpdated r.body now1 now2 <;> rfl
    · rw [if_neg h200]

/-- Once the credential check passes on a well-formed nested token record,
`refresh_access_token` reaches the HTTP exchange and returns its outcome. -/
theorem refresh_reaches_http (config : Config) (expiresAt creation : ℚ)
    (refreshTok : String) (net : NetResult) (now1 now2 : ℚ)
    (hk : truthyGet config "SCHWAB_API_KEY" = true)
    (hs : truthyGet config "SCHWAB_APP_SECRET" = true) :
    refresh_access_token config (.json (mkRefreshableFile expiresAt creation refreshTok))
      net now1 now2 = .ok (tryRefresh net now1 now2) := by
  simp [refresh_access_token, load_tokens, exceptOkBind, hk, hs, pyFalsy,
    mkRefreshableFile, Json.isFalsy, Json.subscript, exceptPure]
  rfl

/-- Every normal return of `refresh_access_token` is either the failure
value of a pre-HTTP early return (no request made) or the outcome of the
`try` block around the HTTP exchange. -/
theorem refresh_ok_cases (config : Config) (file : TokenFile) (net : NetResult)
    (now1 now2 : ℚ) (res : RefreshResult)
    (h : refresh_access_token config file net now1 now2 = .ok res) :
    res = ⟨false, none, false, none⟩ ∨ res = tryRefresh net now1 now2 := by
  cases file with
  | absent =>
    left
    simp only [refresh_access_token, load_tokens, exceptOkBind] at h
    split at h
    · exact (Except.ok.inj h).symm
    · exact (Except.ok.inj h).symm
  | unparseable => exact Except.noConfusion h
  | json td =>
    simp only [refresh_access_token, load_tokens, exceptOkBind] at h
    split at h
    · exact Or.inl (Except.ok.inj h).symm
    · split at h
      · exact Or.inl (Except.ok.inj h).symm
      · cases htok : td.subscript "token" with
        | error e => rw [htok, exceptErrorBind] at h; exact Except.noConfusion h
        | ok tok =>
          rw [htok, exceptOkBind] at h
          cases hrt : tok.subscript "refresh_token" with
          | error e =>
            rw [hrt] at h
            simp only [exceptErrorBind, exceptMapError] at h
            exact Except.noConfusion h
          | ok rt =>
            rw [hrt] at h
            simp only [exceptOkBind, exceptMapOk, exceptPure] at h
            exact Or.inr (Except.ok.inj h).symm

/-- Claim C3: whenever the refresh operation has issued the HTTP request and
the token endpoint answered with a non-200 status, the operation reports the
status code together with the response body, returns failure, and performs
no save — the token file on disk is left unmodified. -/
theorem refresh_non200_no_save (config : Config) (file : TokenFile)
    (r : HttpResponse) (now1 now2 : ℚ) (res : RefreshResult)
    (hrun : refresh_access_token config file (.response r) now1 now2 = .ok res)
    (hhttp : res.httpCalled = true)
    (hstatus : r.status_code ≠ 200) :
    res.saved = none ∧ res.result = false ∧
    res.reported = some (r.status_code, r.text) := by
  rcases refresh_ok_cases config file (.response r) now1 now2 res hrun with hres | hres
  · rw [hres] at hhttp
    exact Bool.noConfusion hhttp
  · have htr : tryRefresh (.response r) now1 now2
        = ⟨true, none, false, some (r.status_code, r.text)⟩ := by
      simp only [tryRefresh]
      rw [if_neg hstatus]
    rw [hres, htr]
    exact ⟨rfl, rfl, rfl⟩

/-- Claim C3 witness: with both credentials present, the stored nested token
record, and a 401 response with body `"unauthorized"`, the refresh run
returns the reported-failure outcome with nothing saved. -/
theorem refresh_non200_no_save_witness :
    (⟨true, none, false, some (401, "unauthorized")⟩ : RefreshResult).saved = none ∧
    (⟨true, none, false, some (401, "unauthorized")⟩ : RefreshResult).result = false ∧
    (⟨true, none, false, some (401, "unauthorized")⟩ : RefreshResult).reported
      = some (401, "unauthorized") :=
  refresh_non200_no_save goodConfig (.json storedTokenData) resp401 100 100
    ⟨true, none, false, some (401, "unauthorized")⟩ rfl rfl (by decide)

/-- Evaluation of a refresh run that reaches the HTTP exchange and receives
a 200 response with a parseable body holding the required fields: the
outcome saves the record rebuilt from the response alone. -/
theorem refresh_200_eq (config : Config) (td tok0 rt0 : Json)
    (nt ei tt sc rt ac idt : Json) (eiNum : ℚ) (r : HttpResponse) (now1 now2 : ℚ)
    (hk : truthyGet config "SCHWAB_API_KEY" = true)
    (hs : truthyGet config "SCHWAB_APP_SECRET" = true)
    (hfal : td.isFalsy = false)
    (htok : td.subscript "token" = .ok tok0)
    (hrt0 : tok0.subscript "refresh_token" = .ok rt0)
    (hst : r.status_code = 200)
    (hbody : r.body = .ok nt)
    (hei : nt.subscript "expires_in" = .ok ei)
    (htt : nt.subscript "token_type" = .ok tt)
    (hsc : nt.subscript "scope" = .ok sc)
    (hrt : nt.subscript "refresh_token" = .ok rt)
    (hac : nt.subscript "access_token" = .ok ac)
    (hid : nt.dictGet "id_token" (.str "") = .ok idt)
    (heiN : ei.asNum = .ok eiNum) :
    refresh_access_token config (.json td) (.response r) now1 now2
      = .ok ⟨true, some (mkUpdatedData ei tt sc rt ac idt now1 (now2 + eiNum)),
             true, none⟩ := by
  simp [refresh_access_token, load_tokens, exceptOkBind, hk, hs, pyFalsy, hfal,
    htok, hrt0, exceptPure, tryRefresh, hst, buildUpdated, hbody, hei, htt, hsc,
    hrt, hac, hid, heiN, exceptMapOk]

/-- Claim C4: when the refresh reaches the HTTP exchange and the endpoint
answers 200 with a parseable body holding the required fields (numeric
`expires_in`), the operation saves a record built from the response and the
clock alone — the previous on-disk record `td` does not occur in the saved
value (full replacement, no merge) — in the nested `"token"` shape with a
fresh `creation_timestamp`, the rotated `refresh_token` and new
`access_token` from the response, and `expires_at = now2 + expires_in`
exactly (`now2` being the second `time.time()` call, within tolerance of
the first). -/
theorem refresh_200_replaces (config : Config) (td tok0 rt0 : Json)
    (nt ei tt sc rt ac idt : Json) (eiNum : ℚ) (r : HttpResponse) (now1 now2 : ℚ)
    (hk : truthyGet config "SCHWAB_API_KEY" = true)
    (hs : truthyGet config "SCHWAB_APP_SECRET" = true)
    (hfal : td.isFalsy = false)
    (htok : td.subscript "token" = .ok tok0)
    (hrt0 : tok0.subscript "refresh_token" = .ok rt0)
    (hst : r.status_code = 200)
    (hbody : r.body = .ok nt)
    (hei : nt.subscript "expires_in" = .ok ei)
    (htt : nt.subscript "token_type" = .ok tt)
    (hsc : nt.subscript "scope" = .ok sc)
    (hrt : nt.subscript "refresh_token" = .ok rt)
    (hac : nt.subscript "access_token" = .ok ac)
    (hid : nt.dictGet "id_token" (.str "") = .ok idt)
    (heiN : ei.asNum = .ok eiNum) :
    refresh_access_token config (.json td) (.response r) now1 now2
      = .ok ⟨true, some (mkUpdatedData ei tt sc rt ac idt now1 (now2 + eiNum)),
             true, none⟩ :=
  refresh_200_eq config td tok0 rt0 nt ei tt sc rt ac idt eiNum r now1 now2
    hk hs hfal htok hrt0 hst hbody hei htt hsc hrt hac hid heiN

/-- Claim C4 witness: a 200 response with `expires_in = 1800` at clock 101
produces, from stored credentials and token, the fully rebuilt nested record
with `expires_at = 1901` and the rotated tokens from the response. -/
theorem refresh_200_replaces_witness :
    refresh_access_token goodConfig (.json storedTokenData) (.response resp200) 100 101
      = .ok ⟨true, some (mkUpdatedData (.num 1800) (.str "Bearer") (.str "api")
          (.str "newref") (.str "newacc") (.str "idtok") 100 1901), true, none⟩ := by
  have h := refresh_200_replaces goodConfig storedTokenData
    (.obj [("expires_at", .num 50), ("refresh_token", .str "oldref")]) (.str "oldref")
    respBodyFull (.num 1800) (.str "Bearer") (.str "api") (.str "newref")
    (.str "newacc") (.str "idtok") 1800 resp200 100 101
    rfl rfl rfl rfl rfl rfl rfl rfl rfl rfl rfl rfl rfl rfl
  norm_num at h
  exact h

/-- Claim C10: a 200 response whose body lacks the optional `id_token` field
still refreshes successfully, storing the empty string `""` as the
`id_token` value of the saved record (neither omitting the field nor
failing); and a save can only occur when the body parsed and all five
required fields (`access_token`, `refresh_token`, `expires_in`,
`token_type`, `scope`) were present, with numeric `expires_in`. -/
theorem refresh_id_token_default (config : Config) (td tok0 rt0 : Json)
    (flds : List (String × Json)) (ei tt sc rt ac : Json) (eiNum : ℚ)
    (r : HttpResponse) (now1 now2 : ℚ)
    (hk : truthyGet config "SCHWAB_API_KEY" = true)
    (hs : truthyGet config "SCHWAB_APP_SECRET" = true)
    (hfal : td.isFalsy = false)
    (htok : td.subscript "token" = .ok tok0)
    (hrt0 : tok0.subscript "refresh_token" = .ok rt0)
    (hst : r.status_code = 200)
    (hbody : r.body = .ok (.obj flds))
    (hnoid : flds.lookup "id_token" = none)
    (hei : (Json.obj flds).subscript "expires_in" = .ok ei)
    (htt : (Json.obj flds).subscript "token_type" = .ok tt)
    (hsc : (Json.obj flds).subscript "scope" = .ok sc)
    (hrt : (Json.obj flds).subscript "refresh_token" = .ok rt)
    (hac : (Json.obj flds).subscript "access_token" = .ok ac)
    (heiN : ei.asNum = .ok eiNum) :
    refresh_access_token config (.json td) (.response r) now1 now2
      = .ok ⟨true, some (mkUpdatedData ei tt sc rt ac (.str "") now1 (now2 + eiNum)),
             true, none⟩ ∧
    (∀ (net2 : NetResult) (m1 m2 : ℚ) (u : Json),
      (tryRefresh net2 m1 m2).saved = some u →
      ∃ r2 nt2 ei2 tt2 sc2 rt2 ac2 eiN2, net2 = .response r2 ∧ r2.status_code = 200 ∧
        r2.body = .ok nt2 ∧
        nt2.subscript "expires_in" = .ok ei2 ∧
        nt2.subscript "token_type" = .ok tt2 ∧
        nt2.subscript "scope" = .ok sc2 ∧
        nt2.subscript "refresh_token" = .ok rt2 ∧
        nt2.subscript "access_token" = .ok ac2 ∧
        ei2.asNum = .ok eiN2) := by
  constructor
  · have hid : (Json.obj flds).dictGet "id_token" (.str "") = .ok (.str "") := by
      simp [Json.dictGet, hnoid]
    exact refresh_200_eq config td tok0 rt0 (.obj flds) ei tt sc rt ac (.str "")
      eiNum r now1 now2 hk hs hfal htok hrt0 hst hbody hei htt hsc hrt hac hid heiN
  · intro net2 m1 m2 u hsaved
    cases net2 with
    | transportError => exact Option.noConfusion hsaved
    | response r2 =>
      by_cases h200 : r2.status_code = 200
      · cases hbu : buildUpdated r2.body m1 m2 with
        | error e =>
          rw [show tryRefresh (.response r2) m1 m2 = ⟨true, none, false, none⟩ from by
            simp only [tryRefresh]; rw [if_pos h200, hbu]] at hsaved
          exact Option.noConfusion hsaved
        | ok u2 =>
          obtain ⟨nt2, ei2, tt2, sc2, rt2, ac2, idt2, eiN2,
              hb1, hb2, hb3, hb4, hb5, hb6, _, hb8, _⟩ :=
            buildUpdated_ok_shape r2.body m1 m2 u2 hbu
          exact ⟨r2, nt2, ei2, tt2, sc2, rt2, ac2, eiN2,
            rfl, h200, hb1, hb2, hb3, hb4, hb5, hb6, hb8⟩
      · rw [show tryRefresh (.response r2) m1 m2
            = ⟨true, none, false, some (r2.status_code, r2.text)⟩ from by
          simp only [tryRefresh]; rw [if_neg h200]] at hsaved
        exact Option.noConfusion hsaved

/-- Claim C10 witness: a 200 response with `expires_in = 900` and no
`id_token` refreshes successfully and the saved record carries
`id_token = ""`. -/
theorem refresh_id_token_default_witness :
    refresh_access_token goodConfig (.json storedTokenData) (.response resp200NoId) 200 201
      = .ok ⟨true, some (mkUpdatedData (.num 900) (.str "Bearer") (.str "api")
          (.str "newref2") (.str "newacc2") (.str "") 200 1101), true, none⟩ := by
  have h := (refresh_id_token_default goodConfig storedTokenData
    (.obj [("expires_at", .num 50), ("refresh_token", .str "oldref")]) (.str "oldref")
    [("expires_in", .num 900), ("token_type", .str "Bearer"), ("scope", .str "api"),
     ("refresh_token", .str "newref2"), ("access_token", .str "newacc2")]
    (.num 900) (.str "Bearer") (.str "api") (.str "newref2") (.str "newacc2")
    900 resp200NoId 200 201
    rfl rfl rfl rfl rfl rfl rfl rfl rfl rfl rfl rfl rfl rfl).1
  norm_num at h
  exact h

/-- Claim C5 counterexample: invoking the check operation on an unparseable
token file lets the `json.JSONDecodeError` escape `main` as an unhandled
fault (interpreter exit code 1) instead of being caught at the top of the
operation and converted to a user-facing message. -/
theorem error_propagation_counterexample :
    mainEntry ["--check"] goodConfig .unparseable (.response resp401) 100 100 100 100
      = .error .jsonDecodeError ∧
    exitCode (mainEntry ["--check"] goodConfig .unparseable
      (.response resp401) 100 100 100 100) = 1 :=
  ⟨rfl, rfl⟩

/-- Claim C5 (amended): only failures arising inside the HTTP exchange of
the refresh operation are caught and converted to a user-facing message
(the refresh returns normally for every network outcome, including
transport failures and malformed response bodies); errors from an
unparseable token file or a wrongly shaped token record are caught nowhere
and propagate out of both the check and the refresh operations as unhandled
faults. -/
theorem error_propagation_amended :
    (∀ now : ℚ, check_token_status .unparseable now = .error .jsonDecodeError) ∧
    (∀ now : ℚ, check_token_status (.json topLevelFile) now = .error (.keyError "token")) ∧
    (∀ (net : NetResult) (now1 now2 : ℚ),
      refresh_access_token goodConfig .unparseable net now1 now2
        = .error .jsonDecodeError) ∧
    (∀ (net : NetResult) (now1 now2 : ℚ),
      refresh_access_token goodConfig (.json topLevelFile) net now1 now2
        = .error (.keyError "token")) ∧
    (∀ (net : NetResult) (now1 now2 : ℚ),
      refresh_access_token goodConfig (.json storedTokenData) net now1 now2
        = .ok (tryRefresh net now1 now2)) :=
  ⟨fun _ => rfl, fun _ => rfl, fun _ _ _ => rfl, fun _ _ _ => rfl, fun _ _ _ => rfl⟩

/-- Claim C6 counterexample: with both credential keys absent the
`--refresh` invocation makes no network call but the process exits 0, not
non-zero — `main` ignores the `False` returned by `refresh_access_token`
and returns normally. -/
theorem missing_creds_counterexample :
    mainEntry ["--refresh"] [] (.json storedTokenData) (.response resp401) 100 100 100 100
      = .ok ⟨false, false, none⟩ ∧
    exitCode (mainEntry ["--refresh"] [] (.json storedTokenData)
      (.response resp401) 100 100 100 100) = 0 :=
  ⟨rfl, rfl⟩

/-- Claim C6 (amended): if either required credential key is absent (or
empty), the refresh operation returns failure before the HTTP request to
the token endpoint is ever issued and nothing is written to the token file;
however the `--refresh` invocation then exits 0 (the claimed non-zero exit
does not happen) whenever the token file is at least parseable. -/
theorem refresh_missing_creds (config : Config) (file : TokenFile)
    (net : NetResult) (now1 now2 : ℚ)
    (hmiss : truthyGet config "SCHWAB_API_KEY" = false ∨
             truthyGet config "SCHWAB_APP_SECRET" = false)
    (hfile : file ≠ .unparseable) :
    httpIssued (refresh_access_token config file net now1 now2) = false ∧
    savedOf (refresh_access_token config file net now1 now2) = none ∧
    mainEntry ["--refresh"] config file net now1 now1 now2 now2
      = .ok ⟨false, false, none⟩ := by
  have hcond : (!(truthyGet config "SCHWAB_API_KEY" &&
      truthyGet config "SCHWAB_APP_SECRET")) = true := by
    rcases hmiss with h | h <;> simp [h]
  have hrefresh : refresh_access_token config file net now1 now2
      = .ok ⟨false, none, false, none⟩ := by
    cases file with
    | unparseable => exact absurd rfl hfile
    | absent => simp [refresh_access_token, load_tokens, exceptOkBind, hcond]
    | json td => simp [refresh_access_token, load_tokens, exceptOkBind, hcond]
  refine ⟨by rw [hrefresh]; rfl, by rw [hrefresh]; rfl, ?_⟩
  simp [mainEntry, hrefresh, exceptOkBind]

/-- Claim C6 witness: with an empty credentials mapping, a stored nested
token record and a pending 401 response, the refresh issues no HTTP
request, saves nothing, and the `--refresh` run exits normally (code 0). -/
theorem refresh_missing_creds_witness :
    httpIssued (refresh_access_token [] (.json storedTokenData)
      (.response resp401) 1 2) = false ∧
    savedOf (refresh_access_token [] (.json storedTokenData)
      (.response resp401) 1 2) = none ∧
    mainEntry ["--refresh"] [] (.json storedTokenData) (.response resp401) 1 1 2 2
      = .ok ⟨false, false, none⟩ :=
  refresh_missing_creds [] (.json storedTokenData) (.response resp401) 1 2
    (Or.inl rfl) (fun h => TokenFile.noConfusion h)

/-- Claim C7 counterexample: an unrecognized argument (`--bogus`) prints the
usage line but the process exits 0, not non-zero; and a no-argument
invocation does not print usage at all — it runs the default
check-and-refresh flow (here the token is valid, so it just returns). -/
theorem usage_counterexample :
    mainEntry ["--bogus"] goodConfig (.json storedTokenData)
      (.response resp401) 1 1 1 1 = .ok ⟨true, false, none⟩ ∧
    exitCode (mainEntry ["--bogus"] goodConfig (.json storedTokenData)
      (.response resp401) 1 1 1 1) = 0 ∧
    mainEntry [] goodConfig (.json storedTokenData) (.response resp401) 1 1 1 1
      = .ok ⟨false, false, none⟩ :=
  ⟨rfl, rfl, rfl⟩

/-- Claim C7 (amended): with a first argument other than `--check` or
`--refresh`, the program prints the usage line and exits 0 (never
non-zero); with no argument it prints no usage line at all and instead runs
the default check-and-refresh flow. -/
theorem usage_amended (command : String) (rest : List String) (config : Config)
    (file : TokenFile) (net : NetResult) (now1 nowR1 nowR2 now3 : ℚ)
    (hc : command ≠ "--check") (hr : command ≠ "--refresh") :
    mainEntry (command :: rest) config file net now1 nowR1 nowR2 now3
      = .ok ⟨true, false, none⟩ ∧
    exitCode (mainEntry (command :: rest) config file net now1 nowR1 nowR2 now3) = 0 ∧
    (∀ tr : MainTrace,
      mainEntry [] config file net now1 nowR1 nowR2 now3 = .ok tr →
      tr.usagePrinted = false) := by
  have husage : mainEntry (command :: rest) config file net now1 nowR1 nowR2 now3
      = .ok ⟨true, false, none⟩ := by
    simp only [mainEntry]
    rw [if_neg hc, if_neg hr]
    rfl
  refine ⟨husage, by rw [husage]; rfl, ?_⟩
  intro tr h
  simp only [mainEntry] at h
  cases hc1 : check_token_status file now1 with
  | error e =>
    rw [hc1, exceptErrorBind] at h
    exact Except.noConfusion h
  | ok v =>
    rw [hc1, exceptOkBind] at h
    cases v with
    | true =>
      rw [if_pos rfl] at h
      rw [← Except.ok.inj h]
    | false =>
      rw [if_neg (by decide : ¬ ((false : Bool) = true))] at h
      cases hr2 : refresh_access_token config file net nowR1 nowR2 with
      | error e =>
        rw [hr2, exceptErrorBind] at h
        exact Except.noConfusion h
      | ok r =>
        rw [hr2, exceptOkBind] at h
        cases hres : r.result with
        | false =>
          rw [hres, if_neg (by decide : ¬ ((false : Bool) = true))] at h
          rw [← Except.ok.inj h]
        | true =>
          rw [hres, if_pos rfl] at h
          cases hc2 : check_token_status (updateFile file r.saved) now3 with
          | error e =>
            rw [hc2, exceptErrorBind] at h
            exact Except.noConfusion h
          | ok v2 =>
            rw [hc2, exceptOkBind] at h
            rw [← Except.ok.inj h]

/-- Claim C7 witness: a `--bogus` invocation prints usage and exits 0. -/
theorem usage_amended_witness :
    mainEntry ["--bogus", "extra"] goodConfig .absent (.response resp401) 1 2 3 4
      = .ok ⟨true, false, none⟩ ∧
    exitCode (mainEntry ["--bogus", "extra"] goodConfig .absent
      (.response resp401) 1 2 3 4) = 0 :=
  ⟨(usage_amended "--bogus" ["extra"] goodConfig .absent (.response resp401) 1 2 3 4
      (by decide) (by decide)).1,
   (usage_amended "--bogus" ["extra"] goodConfig .absent (.response resp401) 1 2 3 4
      (by decide) (by decide)).2.1⟩

/-- Claim C9 counterexample: with a well-formed stored token that the check
reports expired (`expires_at = 50 < now = 100`) but with no credentials
configured, the no-argument run invokes the refresh operation yet the HTTP
call to the token endpoint is never issued and no file is written — the
claimed "refresh (the HTTP call …) if and only if reported expired" fails
in the only-if-to-if direction. -/
theorem default_flow_counterexample :
    check_token_status (.json storedTokenData) 100 = .ok false ∧
    mainEntry [] [] (.json storedTokenData) (.response resp200) 100 100 101 102
      = .ok ⟨false, false, none⟩ :=
  ⟨rfl, rfl⟩

/-- Claim C9 (amended): when invoked with no argument on a well-formed
nested token record, the program first checks token status and invokes the
refresh operation exactly when the check reports the token expired
(`expires_at < now`); with both credentials present the trace shows the
HTTP call happening exactly in the expired case and the file write being
whatever the refresh saved, while a still-valid token yields no network
call and no file write. -/
theorem mainEntry_default_flow (config : Config) (expiresAt creation : ℚ)
    (refreshTok : String) (net : NetResult) (now1 nowR1 nowR2 now3 : ℚ)
    (hk : truthyGet config "SCHWAB_API_KEY" = true)
    (hs : truthyGet config "SCHWAB_APP_SECRET" = true) :
    mainEntry [] config (.json (mkRefreshableFile expiresAt creation refreshTok))
      net now1 nowR1 nowR2 now3
      = .ok ⟨false, decide (expiresAt < now1),
          if expiresAt < now1
          then savedOf (refresh_access_token config
            (.json (mkRefreshableFile expiresAt creation refreshTok)) net nowR1 nowR2)
          else none⟩ := by
  have hrefresh := refresh_reaches_http config expiresAt creation refreshTok net
    nowR1 nowR2 hk hs
  by_cases hlt : expiresAt < now1
  · have hcheck : check_token_status
        (.json (mkRefreshableFile expiresAt creation refreshTok)) now1 = .ok false := by
      rw [check_mkRefreshableFile]
      simp [hlt]
    simp only [mainEntry]
    rw [hcheck, exceptOkBind,
      if_neg (by decide : ¬ ((false : Bool) = true)),
      hrefresh, exceptOkBind,
      decide_eq_true hlt, if_pos hlt]
    simp only [savedOf, tryRefresh_httpCalled]
    cases net with
    | transportError =>
      rw [show tryRefresh .transportError nowR1 nowR2 = ⟨true, none, false, none⟩
        from rfl]
      rfl
    | response r =>
      by_cases h200 : r.status_code = 200
      · cases hbu : buildUpdated r.body nowR1 nowR2 with
        | error e =>
          rw [show tryRefresh (.response r) nowR1 nowR2 = ⟨true, none, false, none⟩
            from by simp only [tryRefresh]; rw [if_pos h200, hbu]]
          rfl
        | ok u =>
          rw [show tryRefresh (.response r) nowR1 nowR2 = ⟨true, some u, true, none⟩
            from by simp only [tryRefresh]; rw [if_pos h200, hbu]]
          obtain ⟨nt2, ei2, tt2, sc2, rt2, ac2, idt2, eiN2, _, _, _, _, _, _, _, _, hu⟩ :=
            buildUpdated_ok_shape r.body nowR1 nowR2 u hbu
          subst hu
          show (do
            let _recheck ← check_token_status
              (.json (mkUpdatedData ei2 tt2 sc2 rt2 ac2 idt2 nowR1 (nowR2 + eiN2))) now3
            pure (⟨false, true, some (mkUpdatedData ei2 tt2 sc2 rt2 ac2 idt2 nowR1
              (nowR2 + eiN2))⟩ : MainTrace) : Except PyError MainTrace) = _
          rw [check_mkUpdatedData, exceptOkBind]
          rfl
      · rw [show tryRefresh (.response r) nowR1 nowR2
            = ⟨true, none, false, some (r.status_code, r.text)⟩
          from by simp only [tryRefresh]; rw [if_neg h200]]
        rfl
  · have hcheck : check_token_status
        (.json (mkRefreshableFile expiresAt creation refreshTok)) now1 = .ok true := by
      rw [check_mkRefreshableFile]
      simp [hlt]
    simp only [mainEntry]
    rw [hcheck, exceptOkBind, if_pos rfl, decide_eq_false hlt, if_neg hlt]
    rfl

/-- Claim C9 witness: with credentials present and the stored token expired
at check time (expiry 50, clock 100), the no-argument run issues the HTTP
call and writes the record rebuilt from the 200 response. -/
theorem mainEntry_default_flow_witness :
    mainEntry [] goodConfig (.json (mkRefreshableFile 50 0 "oldref"))
      (.response resp200) 100 100 101 102
      = .ok ⟨false, true, some (mkUpdatedData (.num 1800) (.str "Bearer") (.str "api")
          (.str "newref") (.str "newacc") (.str "idtok") 100 1901)⟩ := by
  have h := mainEntry_default_flow goodConfig 50 0 "oldref" (.response resp200)
    100 100 101 102 rfl rfl
  rw [show (decide ((50 : ℚ) < 100)) = true from by norm_num,
      if_pos (by norm_num : (50 : ℚ) < 100)] at h
  have h2 := refresh_200_eq goodConfig (mkRefreshableFile 50 0 "oldref")
    (.obj [("expires_at", .num 50), ("refresh_token", .str "oldref")]) (.str "oldref")
    respBodyFull (.num 1800) (.str "Bearer") (.str "api") (.str "newref")
    (.str "newacc") (.str "idtok") 1800 resp200 100 101
    rfl rfl rfl rfl rfl rfl rfl rfl rfl rfl rfl rfl rfl rfl
  rw [h2] at h
  simp only [savedOf] at h
  norm_num at h
  exact h
